import Mathlib

/-!
Verification of `rasberry_pi_4_wifi_car_en.py` (UDP RC bridge:
Pico W -> Raspberry Pi 4 -> L293D dual DC motors + servo).

The embedding models:
* the Input Decoder `parse_packet` over decoded text (`List Char`); the
  UTF-8 decode with `errors="ignore"` is total and never raises, so the
  decoder's behaviour on an arbitrary byte payload is its behaviour on
  the arbitrary decoded text;
* the shaping utilities `adc_to_unit`, `apply_expo` and the actuator
  commands `set_motor`, `brake`, `servo_from_x`, `stop_all` over exact
  rationals, with actuator writes reified as a trace of `Cmd`s;
* one iteration of the `main` receive/timeout loop as a step function on
  the loop state (the `last_ok` liveness timestamp plus the actuator
  pin/duty state), consuming an `Event` (receive timeout, or a datagram
  carrying the observation times of the two `time.time()` calls).
-/

/-! ### Python character and string primitives used by `parse_packet` -/

/-- Decimal digit value of a character, for the fragment of Unicode the
decoder's inputs exercise: the ASCII digits `0`-`9` and the Arabic-Indic
digits U+0660-U+0669.  Both blocks have Unicode category `Nd`
(`Numeric_Type=Decimal`), so Python's `int()` accepts them.  Returns
`none` for every other character. -/
def charDecimalVal (c : Char) : Option Nat :=
  if '0' ≤ c ∧ c ≤ '9' then some (c.toNat - '0'.toNat)
  else if 0x660 ≤ c.toNat ∧ c.toNat ≤ 0x669 then some (c.toNat - 0x660)
  else none

/-- Python `str.isdigit` on a single character: true for characters with
`Numeric_Type=Decimal` or `Numeric_Type=Digit`.  Beyond the decimal
digits of `charDecimalVal`, the modelled fragment includes the Latin-1
superscript digits `¹` (U+00B9), `²` (U+00B2), `³` (U+00B3), which have
`Numeric_Type=Digit` but are *not* category `Nd`, hence are accepted by
`str.isdigit` while rejected by `int()`. -/
def pyCharIsdigit (c : Char) : Bool :=
  (charDecimalVal c).isSome || c = '¹' || c = '²' || c = '³'

/-- Python whitespace stripped by `str.strip()` (ASCII fragment). -/
def pyIsSpace (c : Char) : Bool :=
  c = ' ' || c = '\t' || c = '\n' || c = '\x0d' || c = '\x0b' || c = '\x0c'

/-- Python `text.strip()`: drop leading and trailing whitespace. -/
def pyStrip (s : List Char) : List Char :=
  ((s.dropWhile pyIsSpace).reverse.dropWhile pyIsSpace).reverse

/-- Python `text.split(sep)` for a one-character separator: split at every
occurrence, keeping empty fields; the empty text yields one empty field. -/
def pySplit (sep : Char) : List Char → List (List Char)
  | [] => [[]]
  | c :: cs =>
      if c = sep then [] :: pySplit sep cs
      else
        match pySplit sep cs with
        | f :: rest => (c :: f) :: rest
        | [] => [[c]]

/-- Python `field.isdigit()` on a whole field: nonempty and every
character a digit. -/
def pyIsdigitStr (f : List Char) : Bool :=
  !f.isEmpty && f.all pyCharIsdigit

/-- Numeric value of a field of decimal digits (most significant first). -/
def pyIntVal (f : List Char) : Nat :=
  f.foldl (fun a c => 10 * a + (charDecimalVal c).getD 0) 0

/-- Python `int(field)`: succeeds exactly on a nonempty run of decimal
(`Nd`) digits (signs, inner whitespace and underscores cannot appear in a
field that already passed `isdigit`); raises `ValueError` otherwise. -/
def pyInt (f : List Char) : Option Nat :=
  if !f.isEmpty && f.all (fun c => (charDecimalVal c).isSome) then some (pyIntVal f)
  else none

/-! ### The Input Decoder -/

/-- Outcome of a call to `parse_packet`: an uncaught exception, a `None`
return (invalid payload), or a parsed reading `(b1, b2, x_raw, y_raw)`. -/
inductive ParseResult where
  | exn : ParseResult
  | invalid : ParseResult
  | ok (b1 b2 xRaw yRaw : Nat) : ParseResult
deriving DecidableEq

/-- Model of `parse_packet(data)`: strip, require at least three commas, take the
first four comma-delimited fields, require each to pass `isdigit`, then
convert each with `int()`.  The fallback branches model the `ValueError`
a four-way destructuring of fewer than four fields would raise (shown
unreachable below) and the `ValueError` of `int()` on an `isdigit`-true
but non-decimal field. -/
def parse_packet (data : List Char) : ParseResult :=
  let text := pyStrip data
  if text.count ',' < 3 then .invalid
  else
    match (pySplit ',' text).take 4 with
    | [b1, b2, xr, yr] =>
        if pyIsdigitStr b1 && pyIsdigitStr b2 && pyIsdigitStr xr && pyIsdigitStr yr then
          match pyInt b1, pyInt b2, pyInt xr, pyInt yr with
          | some a, some b, some x, some y => .ok a b x y
          | _, _, _, _ => .exn
        else .invalid
    | _ => .exn

/-! ### Shaping utilities (exact-rational model of the float arithmetic) -/

/-- Model of `adc_to_unit(v, deadzone)`: map `0..65535` to `-1..+1` (centre `0`),
zero inside the deadzone, clamp outside. -/
def adc_to_unit (v : ℕ) (deadzone : ℚ) : ℚ :=
  let u : ℚ := ((v : ℚ) / 65535) * 2 - 1
  if |u| < deadzone then 0 else max (-1) (min 1 u)

/-- Model of `apply_expo(u, k) = (1 - k) * u + k * u ** 3`. -/
def apply_expo (u k : ℚ) : ℚ :=
  (1 - k) * u + k * u ^ 3

/-- Python `int()` on a rational: truncation toward zero. -/
def pyint (q : ℚ) : ℤ :=
  if 0 ≤ q then ⌊q⌋ else ⌈q⌉

/-! ### Actuator commands as a trace of pigpio calls -/

/-- L293D and servo pin numbers (BCM), as configured in the source. -/
def EN_L : ℕ := 12
def IN1_L : ℕ := 5
def IN2_L : ℕ := 6
def EN_R : ℕ := 13
def IN1_R : ℕ := 23
def IN2_R : ℕ := 24
def SERVO_PIN : ℕ := 18

/-- One pigpio call issued by the control loop. -/
inductive Cmd where
  | write (pin level : ℕ) : Cmd
  | pwmDuty (pin : ℕ) (duty : ℤ) : Cmd
  | servoPulse (pin : ℕ) (us : ℤ) : Cmd
deriving DecidableEq

/-- The clamp `max(-1.0, min(1.0, val))` at the top of `set_motor`. -/
def clampUnit (v : ℚ) : ℚ := max (-1) (min 1 v)

/-- The PWM duty cycle `int(abs(val) * 255)` sent by `set_motor` after
its clamp. -/
def motorDuty (val : ℚ) : ℤ := pyint (|clampUnit val| * 255)

/-- Model of `set_motor`: direction lines by sign (positive forward, negative
reverse, zero coast with both lines low), then the PWM duty cycle. -/
def set_motor (dir_a dir_b en : ℕ) (val : ℚ) : List Cmd :=
  let v := clampUnit val
  (if v > 0 then [.write dir_a 1, .write dir_b 0]
   else if v < 0 then [.write dir_a 0, .write dir_b 1]
   else [.write dir_a 0, .write dir_b 0])
  ++ [.pwmDuty en (motorDuty val)]

/-- Model of `brake`: both direction inputs high, PWM duty 0. -/
def brake (dir_a dir_b en : ℕ) : List Cmd :=
  [.write dir_a 1, .write dir_b 1, .pwmDuty en 0]

/-- The clamped pulse width `max(500, min(2500, int(1500 + x * 1000)))`
sent by `servo_from_x`. -/
def servoPulseOf (x : ℚ) : ℤ := max 500 (min 2500 (pyint (1500 + x * 1000)))

/-- Model of `servo_from_x`: map `x` in `-1..+1` to a 500..2500 µs pulse. -/
def servo_from_x (x : ℚ) (pin : ℕ) : List Cmd :=
  [.servoPulse pin (servoPulseOf x)]

/-- Model of `stop_all`: brake both motors and centre the servo. -/
def stop_all : List Cmd :=
  brake IN1_L IN2_L EN_L ++ brake IN1_R IN2_R EN_R
    ++ [.servoPulse SERVO_PIN 1500]

/-! ### Actuator state and the effect of a trace -/

/-- Levels of the four direction pins, the two PWM duties, and the servo
pulse width. -/
structure ActState where
  in1L : ℕ
  in2L : ℕ
  in1R : ℕ
  in2R : ℕ
  dutyL : ℤ
  dutyR : ℤ
  servoUs : ℤ
deriving DecidableEq

/-- Effect of one pigpio call on the actuator state. -/
def applyCmd (s : ActState) : Cmd → ActState
  | .write p v =>
      if p = IN1_L then { s with in1L := v }
      else if p = IN2_L then { s with in2L := v }
      else if p = IN1_R then { s with in1R := v }
      else if p = IN2_R then { s with in2R := v }
      else s
  | .pwmDuty p d =>
      if p = EN_L then { s with dutyL := d }
      else if p = EN_R then { s with dutyR := d }
      else s
  | .servoPulse p u =>
      if p = SERVO_PIN then { s with servoUs := u }
      else s

/-- Effect of a trace of calls, first to last. -/
def applyTrace (s : ActState) (t : List Cmd) : ActState := t.foldl applyCmd s

/-- Both motors in the brake state: both direction lines high, zero duty. -/
def motorsBraked (s : ActState) : Prop :=
  s.in1L = 1 ∧ s.in2L = 1 ∧ s.dutyL = 0 ∧ s.in1R = 1 ∧ s.in2R = 1 ∧ s.dutyR = 0

instance (s : ActState) : Decidable (motorsBraked s) := by
  unfold motorsBraked; infer_instance

/-- The safe state forced by `stop_all`: motors braked, servo neutral. -/
def safeState (s : ActState) : Prop := motorsBraked s ∧ s.servoUs = 1500

instance (s : ActState) : Decidable (safeState s) := by
  unfold safeState; infer_instance

/-! ### One iteration of the control loop -/

/-- Startup configuration (argparse defaults overridable per run). -/
structure Cfg where
  deadzone : ℚ
  expo : ℚ
  base_speed : ℚ
  turbo_speed : ℚ
  failsafe : ℚ

/-- The defaults from the user-configuration block. -/
def defaultCfg : Cfg :=
  { deadzone := 8/100, expo := 6/10, base_speed := 6/10,
    turbo_speed := 1, failsafe := 1/2 }

/-- Loop state: the `last_ok` liveness timestamp, the actuator state, and
whether an uncaught exception has killed the loop. -/
structure LoopState where
  last_ok : ℚ
  act : ActState
  crashed : Bool
deriving DecidableEq

/-- One turn of the `while True` loop: either `recvfrom` timed out at
time `now`, or a datagram `data` arrived, with `now` the value of the
`time.time()` call that sets `last_ok` and `now2` the value of the later
`time.time()` call of the in-loop failsafe re-check. -/
inductive Event where
  | timeout (now : ℚ) : Event
  | recv (data : List Char) (now now2 : ℚ) : Event

/-- Tank-drive mixing, left side: `max(-1.0, min(1.0, y + x)) * ms`. -/
def mixLeft (x y ms : ℚ) : ℚ := clampUnit (y + x) * ms

/-- Tank-drive mixing, right side: `max(-1.0, min(1.0, y - x)) * ms`. -/
def mixRight (x y ms : ℚ) : ℚ := clampUnit (y - x) * ms

/-- The actuation of one valid reading: shape both axes, pick the speed
ceiling, brake (b2 = 0) or mix-and-drive, then always the servo. -/
def driveTrace (cfg : Cfg) (b1 b2 xRaw yRaw : ℕ) : List Cmd :=
  let x_unit := apply_expo (adc_to_unit xRaw cfg.deadzone) cfg.expo
  let y_unit := apply_expo (adc_to_unit yRaw cfg.deadzone) cfg.expo
  let max_speed := if b1 = 0 then cfg.turbo_speed else cfg.base_speed
  (if b2 = 0 then
    brake IN1_L IN2_L EN_L ++ brake IN1_R IN2_R EN_R
   else
    set_motor IN1_L IN2_L EN_L (mixLeft x_unit y_unit max_speed)
      ++ set_motor IN1_R IN2_R EN_R (mixRight x_unit y_unit max_speed))
  ++ servo_from_x x_unit SERVO_PIN

/-- One loop iteration: on timeout, trip the failsafe when `last_ok` is
stale; on receipt, discard invalid datagrams without touching `last_ok`,
or actuate a valid reading, refresh `last_ok`, and re-check the failsafe.
Returns the new loop state and the trace of pigpio calls issued. -/
def step (cfg : Cfg) (s : LoopState) : Event → LoopState × List Cmd
  | .timeout now =>
      if s.crashed then (s, [])
      else if now - s.last_ok > cfg.failsafe then
        ({ s with act := applyTrace s.act stop_all }, stop_all)
      else (s, [])
  | .recv data now now2 =>
      if s.crashed then (s, [])
      else
        match parse_packet data with
        | .invalid => (s, [])
        | .exn => ({ s with crashed := true }, [])
        | .ok b1 b2 xr yr =>
            let tr := driveTrace cfg b1 b2 xr yr
            let tr2 := if now2 - now > cfg.failsafe then tr ++ stop_all else tr
            ({ last_ok := now, act := applyTrace s.act tr2, crashed := false }, tr2)

/-- Run the loop over a list of events. -/
def runLoop (cfg : Cfg) (s : LoopState) : List Event → LoopState
  | [] => s
  | e :: es => runLoop cfg (step cfg s e).1 es

/-- Actuator state right after the startup sequence: direction pins low,
duties zero, servo centred. -/
def initAct : ActState :=
  { in1L := 0, in2L := 0, in1R := 0, in2R := 0,
    dutyL := 0, dutyR := 0, servoUs := 1500 }

/-- Loop state on entering the loop at time `t0` (`last_ok = time.time()`). -/
def initState (t0 : ℚ) : LoopState :=
  { last_ok := t0, act := initAct, crashed := false }

/-- Concrete valid payload `"1,1,65535,65535"` (full up-right deflection). -/
def goodPayload : List Char :=
  ['1', ',', '1', ',', '6', '5', '5', '3', '5', ',', '6', '5', '5', '3', '5']

/-- Concrete malformed payload `"x"`. -/
def badPayload : List Char := ['x']

/-! ### Helper lemmas -/

theorem clampUnit_le_one (v : ℚ) : clampUnit v ≤ 1 :=
  max_le (by norm_num) (min_le_left _ _)

theorem neg_one_le_clampUnit (v : ℚ) : -1 ≤ clampUnit v :=
  le_max_left _ _

theorem abs_clampUnit_le_one (v : ℚ) : |clampUnit v| ≤ 1 :=
  abs_le.mpr ⟨neg_one_le_clampUnit v, clampUnit_le_one v⟩

theorem adc_to_unit_bounds (v : ℕ) (d : ℚ) :
    -1 ≤ adc_to_unit v d ∧ adc_to_unit v d ≤ 1 := by
  unfold adc_to_unit
  dsimp only
  split
  · norm_num
  · exact ⟨le_max_left _ _, max_le (by norm_num) (min_le_left _ _)⟩

theorem apply_expo_bounds (u k : ℚ) (hu0 : -1 ≤ u) (hu1 : u ≤ 1)
    (hk0 : 0 ≤ k) (hk1 : k ≤ 1) :
    -1 ≤ apply_expo u k ∧ apply_expo u k ≤ 1 := by
  constructor
  · have h : apply_expo u k + 1 = (1 + u) * (1 + k * u * (u - 1)) := by
      unfold apply_expo; ring
    nlinarith [mul_nonneg hk0 (sq_nonneg (2*u - 1)),
      mul_nonneg (by linarith : (0:ℚ) ≤ 1 + u)
        (mul_nonneg hk0 (sq_nonneg (2*u - 1)))]
  · have h : 1 - apply_expo u k = (1 - u) * (1 + k * u * (1 + u)) := by
      unfold apply_expo; ring
    nlinarith [mul_nonneg hk0 (sq_nonneg (2*u + 1)),
      mul_nonneg (by linarith : (0:ℚ) ≤ 1 - u)
        (mul_nonneg hk0 (sq_nonneg (2*u + 1)))]

theorem motorDuty_bounds (v : ℚ) : 0 ≤ motorDuty v ∧ motorDuty v ≤ 255 := by
  have h0 : (0:ℚ) ≤ |clampUnit v| * 255 := by positivity
  have h255 : |clampUnit v| * 255 ≤ 255 :=
    mul_le_of_le_one_left (by norm_num) (abs_clampUnit_le_one v)
  unfold motorDuty pyint
  rw [if_pos h0]
  constructor
  · exact Int.le_floor.mpr (by exact_mod_cast h0)
  · have := Int.floor_le_floor h255
    simpa using this

theorem servoPulseOf_bounds (x : ℚ) :
    500 ≤ servoPulseOf x ∧ servoPulseOf x ≤ 2500 :=
  ⟨le_max_left _ _, max_le (by norm_num) (min_le_left _ _)⟩

/-! ### Claim theorems -/

/-- Claim C8: for `u` in `[-1, 1]` and `k` in `[0, 1]`, `apply_expo` is
odd-symmetric in `u`, the identity at `k = 0`, and zero at `u = 0`. -/
theorem apply_expo_symmetry (u k : ℚ) (hu0 : -1 ≤ u) (hu1 : u ≤ 1)
    (hk0 : 0 ≤ k) (hk1 : k ≤ 1) :
    apply_expo (-u) k = -apply_expo u k ∧ apply_expo u 0 = u ∧
      apply_expo 0 k = 0 := by
  refine ⟨?_, ?_, ?_⟩ <;> unfold apply_expo <;> ring

/-- Witness for C8 at `u = 1/2`, `k = 3/5`. -/
theorem apply_expo_symmetry_witness :
    (-1 ≤ (1/2 : ℚ) ∧ (1/2 : ℚ) ≤ 1 ∧ 0 ≤ (3/5 : ℚ) ∧ (3/5 : ℚ) ≤ 1) ∧
    (apply_expo (-(1/2)) (3/5) = -apply_expo (1/2) (3/5) ∧
      apply_expo (1/2) 0 = 1/2 ∧ apply_expo 0 (3/5) = 0) :=
  ⟨⟨by norm_num, by norm_num, by norm_num, by norm_num⟩,
    apply_expo_symmetry (1/2) (3/5) (by norm_num) (by norm_num)
      (by norm_num) (by norm_num)⟩

/-- Claim C7: tank-drive mixing is bounded by the active speed ceiling:
for shaped inputs in `[-1, 1]` and `0 ≤ ms`, `|mixLeft| ≤ ms` and
`|mixRight| ≤ ms`. -/
theorem mixing_bounded_by_ceiling (x y ms : ℚ) (hx0 : -1 ≤ x) (hx1 : x ≤ 1)
    (hy0 : -1 ≤ y) (hy1 : y ≤ 1) (hms : 0 ≤ ms) :
    |mixLeft x y ms| ≤ ms ∧ |mixRight x y ms| ≤ ms := by
  constructor
  · rw [mixLeft, abs_mul, abs_of_nonneg hms]
    exact mul_le_of_le_one_left hms (abs_clampUnit_le_one _)
  · rw [mixRight, abs_mul, abs_of_nonneg hms]
    exact mul_le_of_le_one_left hms (abs_clampUnit_le_one _)

/-- Witness for C7 at `x = 1`, `y = 1`, `ms = 3/5`. -/
theorem mixing_bounded_by_ceiling_witness :
    (-1 ≤ (1:ℚ) ∧ (1:ℚ) ≤ 1 ∧ 0 ≤ (3/5 : ℚ)) ∧
    (|mixLeft 1 1 (3/5)| ≤ 3/5 ∧ |mixRight 1 1 (3/5)| ≤ 3/5) :=
  ⟨⟨by norm_num, by norm_num, by norm_num⟩,
    mixing_bounded_by_ceiling 1 1 (3/5) (by norm_num) (by norm_num)
      (by norm_num) (by norm_num) (by norm_num)⟩

/-- Claim C5: for every reading and every deadzone and expo in `[0, 1]`,
the shaped axis values stay in `[-1, 1]` after each transform (the expo
blend included, which has no explicit clamp), the motor magnitude sent to
the driver stays in `[0, 1]` (PWM duty in `[0, 255]`) for the mixed drive
values at any speed ceiling, and the servo pulse stays in `[500, 2500]`. -/
theorem shaping_and_output_invariants (xr yr : ℕ) (d k ms : ℚ)
    (hd0 : 0 ≤ d) (hd1 : d ≤ 1) (hk0 : 0 ≤ k) (hk1 : k ≤ 1) :
    (-1 ≤ adc_to_unit xr d ∧ adc_to_unit xr d ≤ 1) ∧
    (-1 ≤ adc_to_unit yr d ∧ adc_to_unit yr d ≤ 1) ∧
    (-1 ≤ apply_expo (adc_to_unit xr d) k ∧ apply_expo (adc_to_unit xr d) k ≤ 1) ∧
    (-1 ≤ apply_expo (adc_to_unit yr d) k ∧ apply_expo (adc_to_unit yr d) k ≤ 1) ∧
    (|clampUnit (mixLeft (apply_expo (adc_to_unit xr d) k)
        (apply_expo (adc_to_unit yr d) k) ms)| ≤ 1) ∧
    (|clampUnit (mixRight (apply_expo (adc_to_unit xr d) k)
        (apply_expo (adc_to_unit yr d) k) ms)| ≤ 1) ∧
    (0 ≤ motorDuty (mixLeft (apply_expo (adc_to_unit xr d) k)
          (apply_expo (adc_to_unit yr d) k) ms) ∧
      motorDuty (mixLeft (apply_expo (adc_to_unit xr d) k)
          (apply_expo (adc_to_unit yr d) k) ms) ≤ 255) ∧
    (0 ≤ motorDuty (mixRight (apply_expo (adc_to_unit xr d) k)
          (apply_expo (adc_to_unit yr d) k) ms) ∧
      motorDuty (mixRight (apply_expo (adc_to_unit xr d) k)
          (apply_expo (adc_to_unit yr d) k) ms) ≤ 255) ∧
    (500 ≤ servoPulseOf (apply_expo (adc_to_unit xr d) k) ∧
      servoPulseOf (apply_expo (adc_to_unit xr d) k) ≤ 2500) := by
  obtain ⟨hx0, hx1⟩ := adc_to_unit_bounds xr d
  obtain ⟨hy0, hy1⟩ := adc_to_unit_bounds yr d
  exact ⟨⟨hx0, hx1⟩, ⟨hy0, hy1⟩,
    apply_expo_bounds _ k hx0 hx1 hk0 hk1,
    apply_expo_bounds _ k hy0 hy1 hk0 hk1,
    abs_clampUnit_le_one _, abs_clampUnit_le_one _,
    motorDuty_bounds _, motorDuty_bounds _, servoPulseOf_bounds _⟩

/-- Witness for C5 at raw axes `65535, 0`, deadzone `8/100`, expo `6/10`,
ceiling `3/5`. -/
theorem shaping_and_output_invariants_witness :
    (0 ≤ (8/100 : ℚ) ∧ (8/100 : ℚ) ≤ 1 ∧ 0 ≤ (6/10 : ℚ) ∧ (6/10 : ℚ) ≤ 1) ∧
    (-1 ≤ adc_to_unit 65535 (8/100) ∧ adc_to_unit 65535 (8/100) ≤ 1) :=
  ⟨⟨by norm_num, by norm_num, by norm_num, by norm_num⟩,
    (shaping_and_output_invariants 65535 0 (8/100) (6/10) (3/5)
      (by norm_num) (by norm_num) (by norm_num) (by norm_num)).1⟩

/-- Claim C2 (code bug): on the UTF-8 payload `"²,1,1,1"` the field `"²"`
passes the `isdigit` check (U+00B2 has `Numeric_Type=Digit`) but `int()`
rejects it (not category `Nd`), so `parse_packet` raises `ValueError`
instead of returning a reading or `None`. -/
theorem parse_packet_superscript_raises :
    pyIsdigitStr ['²'] = true ∧ pyInt ['²'] = none ∧
    parse_packet ['²', ',', '1', ',', '1', ',', '1'] = .exn := by decide

/-- Claim C3 (code bug): the payload `"¹,2,3,4"` has three commas and
four fields that are all composed solely of digit characters, so by the
claimed characterisation `parse_packet` should return the parsed
integers; instead the `int()` conversion of `"¹"` raises. -/
theorem parse_packet_digit_fields_raise :
    (pyStrip ['¹', ',', '2', ',', '3', ',', '4']).count ',' = 3 ∧
    (pySplit ',' (pyStrip ['¹', ',', '2', ',', '3', ',', '4'])).take 4
      = [['¹'], ['2'], ['3'], ['4']] ∧
    (∀ f ∈ [['¹'], ['2'], ['3'], ['4']], pyIsdigitStr f = true) ∧
    parse_packet ['¹', ',', '2', ',', '3', ',', '4'] = .exn := by decide

theorem applyTrace_stop_all (s : ActState) :
    applyTrace s stop_all =
      { in1L := 1, in2L := 1, in1R := 1, in2R := 1,
        dutyL := 0, dutyR := 0, servoUs := 1500 } := rfl

theorem safeState_applyTrace_stop_all (s : ActState) :
    safeState (applyTrace s stop_all) := by
  rw [applyTrace_stop_all]
  exact ⟨⟨rfl, rfl, rfl, rfl, rfl, rfl⟩, rfl⟩

/-- Claim C4: an iteration whose datagram parses as invalid leaves the
`last_ok` liveness timestamp unchanged; an iteration whose datagram
parses successfully sets it to the receive time `now`; a timeout
iteration also leaves it unchanged. -/
theorem last_ok_frame_conditions (cfg : Cfg) (s : LoopState)
    (hc : s.crashed = false) (data : List Char) (now now2 : ℚ) :
    (parse_packet data = .invalid →
      (step cfg s (.recv data now now2)).1.last_ok = s.last_ok) ∧
    (∀ b1 b2 xr yr, parse_packet data = .ok b1 b2 xr yr →
      (step cfg s (.recv data now now2)).1.last_ok = now) ∧
    (∀ t, (step cfg s (.timeout t)).1.last_ok = s.last_ok) := by
  refine ⟨fun h => ?_, fun b1 b2 xr yr h => ?_, fun t => ?_⟩
  · simp [step, hc, h]
  · simp [step, hc, h]
  · by_cases hT : t - s.last_ok > cfg.failsafe <;> simp [step, hc, hT]

/-- Witness for C4 on the invalid payload `"x"` from `initState 0`. -/
theorem last_ok_frame_conditions_witness :
    (initState 0).crashed = false ∧
    (parse_packet badPayload = .invalid →
      (step defaultCfg (initState 0) (.recv badPayload 7 7)).1.last_ok
        = (initState 0).last_ok) :=
  ⟨rfl, (last_ok_frame_conditions defaultCfg (initState 0) rfl
    badPayload 7 7).1⟩

/-- Claim C6: when a valid reading has `b2 = 0` (pressed), the iteration
issues `brake` to both motors — both direction lines high, zero duty —
regardless of the axis values, and still issues the servo pulse computed
from the shaped x-axis value in the same iteration. -/
theorem brake_button_still_steers (cfg : Cfg) (s : LoopState)
    (hc : s.crashed = false) (data : List Char) (now now2 : ℚ)
    (b1 xr yr : ℕ) (hp : parse_packet data = .ok b1 0 xr yr) :
    ∃ rest, (step cfg s (.recv data now now2)).2 =
      brake IN1_L IN2_L EN_L ++ brake IN1_R IN2_R EN_R ++
        servo_from_x (apply_expo (adc_to_unit xr cfg.deadzone) cfg.expo)
          SERVO_PIN ++ rest := by
  by_cases hT : now2 - now > cfg.failsafe
  · exact ⟨stop_all, by simp [step, hc, hp, hT, driveTrace, List.append_assoc]⟩
  · exact ⟨[], by simp [step, hc, hp, hT, driveTrace, List.append_assoc]⟩

/-- Witness for C6 on the payload `"1,0,3,4"` from `initState 0`. -/
theorem brake_button_still_steers_witness :
    (initState 0).crashed = false ∧
    parse_packet ['1', ',', '0', ',', '3', ',', '4'] = .ok 1 0 3 4 ∧
    ∃ rest, (step defaultCfg (initState 0)
        (.recv ['1', ',', '0', ',', '3', ',', '4'] 2 2)).2 =
      brake IN1_L IN2_L EN_L ++ brake IN1_R IN2_R EN_R ++
        servo_from_x (apply_expo (adc_to_unit 3 defaultCfg.deadzone)
          defaultCfg.expo) SERVO_PIN ++ rest :=
  ⟨rfl, by decide,
    brake_button_still_steers defaultCfg (initState 0) rfl
      ['1', ',', '0', ',', '3', ',', '4'] 2 2 1 3 4 (by decide)⟩

/-- Claim C10: the failsafe is not latched.  A timeout tick with a stale
`last_ok` re-issues the full `stop_all` sequence (so the safe state is
re-issued on every such tick), and the very next valid reading produces
the normal actuation trace — independent of the prior actuator state,
with no reset or re-arm step — and refreshes `last_ok`. -/
theorem failsafe_not_latched (cfg : Cfg) (s : LoopState)
    (hc : s.crashed = false) (now : ℚ) :
    (now - s.last_ok > cfg.failsafe →
      (step cfg s (.timeout now)).2 = stop_all ∧
      safeState (step cfg s (.timeout now)).1.act) ∧
    (∀ data b1 b2 xr yr now2, parse_packet data = .ok b1 b2 xr yr →
      (step cfg s (.recv data now now2)).2 =
        driveTrace cfg b1 b2 xr yr ++
          (if now2 - now > cfg.failsafe then stop_all else []) ∧
      (step cfg s (.recv data now now2)).1.last_ok = now) := by
  constructor
  · intro ht
    refine ⟨by simp [step, hc, ht], ?_⟩
    simp only [step, hc, Bool.false_eq_true, if_false, ht, if_true]
    exact safeState_applyTrace_stop_all s.act
  · intro data b1 b2 xr yr now2 hp
    by_cases hT : now2 - now > cfg.failsafe <;>
      simp [step, hc, hp, hT]

/-- Witness for C10: after silence from time `0` to `1` with the default
half-second window, the timeout tick at `1` re-issues `stop_all`. -/
theorem failsafe_not_latched_witness :
    (initState 0).crashed = false ∧
    ((1:ℚ) - (initState 0).last_ok > defaultCfg.failsafe) ∧
    (step defaultCfg (initState 0) (.timeout 1)).2 = stop_all :=
  ⟨rfl, by norm_num [initState, defaultCfg],
    ((failsafe_not_latched defaultCfg (initState 0) rfl 1).1
      (by norm_num [initState, defaultCfg])).1⟩

/-- Claim C1 (counterexample): an execution in which a valid datagram
arrives at time `0` and only the invalid datagram `"x"` arrives during
the following ten seconds.  No valid datagram has arrived for ten
seconds (twenty times the default half-second window) and the last
datagram parsed as invalid, yet the loop never ran `stop_all`: the
motors are not in the brake state and the servo is not at neutral,
because the failsafe is only checked on a receive timeout or after a
*valid* parse, and a steady stream of invalid datagrams triggers
neither. -/
theorem failsafe_missed_under_invalid_stream :
    parse_packet goodPayload = .ok 1 1 65535 65535 ∧
    parse_packet badPayload = .invalid ∧
    (let final := runLoop defaultCfg (initState 0)
        [.recv goodPayload 0 0, .recv badPayload 10 10]
     final.crashed = false ∧
     (10 : ℚ) - final.last_ok > defaultCfg.failsafe ∧
     ¬ motorsBraked final.act ∧
     final.act.servoUs ≠ 1500) := by
  have h1 : parse_packet goodPayload = .ok 1 1 65535 65535 := by decide
  have h2 : parse_packet badPayload = .invalid := by decide
  have hfinal : runLoop defaultCfg (initState 0)
      [.recv goodPayload 0 0, .recv badPayload 10 10] =
      ⟨0, ⟨1, 0, 0, 0, 153, 0, 2500⟩, false⟩ := by
    have hfl : (⌊|(3:ℚ)/5| * 255⌋ : ℤ) = 153 := by
      rw [abs_of_nonneg (by norm_num : (0:ℚ) ≤ 3/5)]
      rw [show (3:ℚ)/5 * 255 = ((153:ℤ) : ℚ) by norm_num]
      exact Int.floor_intCast 153
    norm_num [runLoop, step, h1, h2, hfl, initState, initAct, defaultCfg,
      driveTrace, adc_to_unit, apply_expo, mixLeft, mixRight, clampUnit,
      set_motor, motorDuty, pyint, servo_from_x, servoPulseOf,
      applyTrace, applyCmd, EN_L, IN1_L, IN2_L, EN_R, IN1_R, IN2_R,
      SERVO_PIN]
  refine ⟨h1, h2, ?_⟩
  rw [hfinal]
  refine ⟨rfl, by norm_num [defaultCfg], ?_, by decide⟩
  intro h
  exact absurd h.2.1 (by decide)

/-- Claim C1 (amended): whenever a loop tick experiences a *receive
timeout* at a time more than `failsafe` past the last liveness update,
the iteration runs `stop_all`: both motors are put in the brake state
(both direction lines high, zero duty) and the servo is set to the
neutral 1500 µs pulse, regardless of the actuators' prior state.  (The
original claim's extension to silence windows during which invalid
datagrams keep arriving is exactly what the counterexample refutes.) -/
theorem failsafe_on_timeout_tick (cfg : Cfg) (s : LoopState)
    (hc : s.crashed = false) (now : ℚ)
    (ht : now - s.last_ok > cfg.failsafe) :
    (step cfg s (.timeout now)).2 = stop_all ∧
    motorsBraked (step cfg s (.timeout now)).1.act ∧
    (step cfg s (.timeout now)).1.act.servoUs = 1500 := by
  refine ⟨by simp [step, hc, ht], ?_, ?_⟩ <;>
    simp [step, hc, ht, applyTrace_stop_all, motorsBraked]

/-- Witness for the amended C1: from a non-safe actuator state (left
motor driving forward, servo hard over) at `last_ok = 0`, a timeout tick
at time `1` brakes both motors and centres the servo. -/
theorem failsafe_on_timeout_tick_witness :
    (LoopState.mk 0 (ActState.mk 1 0 1 0 153 153 2500) false).crashed
        = false ∧
    ((1:ℚ) - (LoopState.mk 0 (ActState.mk 1 0 1 0 153 153 2500)
        false).last_ok > defaultCfg.failsafe) ∧
    motorsBraked (step defaultCfg
      (LoopState.mk 0 (ActState.mk 1 0 1 0 153 153 2500) false)
      (.timeout 1)).1.act :=
  ⟨rfl, by norm_num [defaultCfg],
    (failsafe_on_timeout_tick defaultCfg
      (LoopState.mk 0 (ActState.mk 1 0 1 0 153 153 2500) false) rfl 1
      (by norm_num [defaultCfg])).2.1⟩

theorem pySplit_no_sep (sep : Char) (f : List Char) (h : f.count sep = 0) :
    pySplit sep f = [f] := by
  induction f with
  | nil => rfl
  | cons c cs ih =>
    rw [List.count_cons] at h
    by_cases hc : c = sep
    · simp [hc] at h
    · have h' : cs.count sep = 0 := by simpa [hc] using h
      simp only [pySplit, if_neg hc, ih h']

theorem pySplit_append_sep (sep : Char) (a r : List Char)
    (h : a.count sep = 0) :
    pySplit sep (a ++ sep :: r) = a :: pySplit sep r := by
  induction a with
  | nil => simp [pySplit]
  | cons c cs ih =>
    rw [List.count_cons] at h
    by_cases hc : c = sep
    · simp [hc] at h
    · have h' : cs.count sep = 0 := by simpa [hc] using h
      simp only [List.cons_append, pySplit, if_neg hc, List.append_eq]
      rw [ih h']

theorem pyStrip_of_ends (a b : Char) (mid : List Char)
    (ha : pyIsSpace a = false) (hb : pyIsSpace b = false) :
    pyStrip (a :: (mid ++ [b])) = a :: (mid ++ [b]) := by
  unfold pyStrip
  rw [List.dropWhile_cons, if_neg (by simp [ha])]
  rw [show (a :: (mid ++ [b])).reverse = b :: (mid.reverse ++ [a]) by simp]
  rw [List.dropWhile_cons, if_neg (by simp [hb])]
  simp

theorem pyCharIsdigit_of_ascii {c : Char} (h0 : '0' ≤ c) (h9 : c ≤ '9') :
    pyCharIsdigit c = true := by
  unfold pyCharIsdigit charDecimalVal
  rw [if_pos ⟨h0, h9⟩]
  simp

theorem charDecimalVal_isSome_of_ascii {c : Char} (h0 : '0' ≤ c)
    (h9 : c ≤ '9') : (charDecimalVal c).isSome = true := by
  unfold charDecimalVal
  rw [if_pos ⟨h0, h9⟩]
  rfl

theorem pyIsdigitStr_of_ascii_digits (f : List Char) (hne : f ≠ [])
    (hdig : ∀ c ∈ f, '0' ≤ c ∧ c ≤ '9') : pyIsdigitStr f = true := by
  unfold pyIsdigitStr
  rw [Bool.and_eq_true]
  refine ⟨by simp [hne], ?_⟩
  rw [List.all_eq_true]
  intro c hc
  exact pyCharIsdigit_of_ascii (hdig c hc).1 (hdig c hc).2

theorem pyInt_of_ascii_digits (f : List Char) (hne : f ≠ [])
    (hdig : ∀ c ∈ f, '0' ≤ c ∧ c ≤ '9') : pyInt f = some (pyIntVal f) := by
  unfold pyInt
  rw [if_pos]
  rw [Bool.and_eq_true]
  refine ⟨by simp [hne], ?_⟩
  rw [List.all_eq_true]
  intro c hc
  exact charDecimalVal_isSome_of_ascii (hdig c hc).1 (hdig c hc).2

theorem adc_to_unit_over_range (v : ℕ) (d : ℚ) (hv : 65535 < v)
    (hd1 : d ≤ 1) : adc_to_unit v d = 1 := by
  unfold adc_to_unit
  dsimp only
  have hcast : (65535:ℚ) < (v:ℚ) := by exact_mod_cast hv
  have hdiv : (1:ℚ) < (v:ℚ) / 65535 := by
    rw [lt_div_iff₀ (by norm_num)]
    linarith
  have hu : (1:ℚ) < (v:ℚ) / 65535 * 2 - 1 := by linarith
  rw [if_neg ?hnin]
  case hnin =>
    rw [abs_of_pos (by linarith)]
    exact not_lt.mpr (le_of_lt (lt_of_le_of_lt hd1 hu))
  rw [min_eq_left (le_of_lt hu)]
  norm_num

theorem parse_packet_ascii_digit_field (f : List Char) (hne : f ≠ [])
    (hdig : ∀ c ∈ f, '0' ≤ c ∧ c ≤ '9') :
    parse_packet (['1', ','] ++ ['1', ','] ++ f ++ [','] ++ ['2'])
      = .ok 1 1 (pyIntVal f) 2 := by
  have hnc : f.count ',' = 0 :=
    List.count_eq_zero.mpr (fun h => absurd (hdig _ h) (by decide))
  have hP : (['1', ','] ++ ['1', ','] ++ f ++ [','] ++ ['2'] : List Char)
      = '1' :: ((',' :: '1' :: ',' :: (f ++ [','])) ++ ['2']) := by simp
  rw [hP]
  unfold parse_packet
  dsimp only
  rw [pyStrip_of_ends _ _ _ (by decide) (by decide)]
  have hcount : ('1' :: ((',' :: '1' :: ',' :: (f ++ [','])) ++ ['2'])).count ','
      = 3 := by
    simp [List.count_cons, List.count_append, hnc]
  rw [hcount, if_neg (by norm_num)]
  have hsplit : pySplit ',' ('1' :: ((',' :: '1' :: ',' :: (f ++ [','])) ++ ['2']))
      = [['1'], ['1'], f, ['2']] := by
    rw [show ('1' :: ((',' :: '1' :: ',' :: (f ++ [','])) ++ ['2']))
        = ['1'] ++ ',' :: (['1'] ++ ',' :: (f ++ ',' :: ['2'])) by simp]
    rw [pySplit_append_sep _ _ _ (by decide),
      pySplit_append_sep _ _ _ (by decide),
      pySplit_append_sep _ _ _ hnc,
      pySplit_no_sep _ _ (by decide)]
  rw [hsplit]
  dsimp only [List.take]
  rw [if_pos (by
    simp [pyIsdigitStr_of_ascii_digits f hne hdig]
    decide)]
  rw [pyInt_of_ascii_digits f hne hdig]
  rw [show pyInt ['1'] = some 1 by decide, show pyInt ['2'] = some 2 by decide]

/-- Claim C9: the decoder applies no range check — a payload whose third
field is any nonempty run of digits is accepted, however large — and for
every over-range raw value the normalised axis still lies in `[-1, 1]`,
saturating at `+1` (the deadzone test cannot capture it since the
normalised value exceeds `1 ≥ deadzone`). -/
theorem over_range_axis_saturates (f : List Char) (hne : f ≠ [])
    (hdig : ∀ c ∈ f, '0' ≤ c ∧ c ≤ '9') (d : ℚ) (hd0 : 0 ≤ d) (hd1 : d ≤ 1)
    (hv : 65535 < pyIntVal f) :
    parse_packet (['1', ','] ++ ['1', ','] ++ f ++ [','] ++ ['2'])
        = .ok 1 1 (pyIntVal f) 2 ∧
    adc_to_unit (pyIntVal f) d = 1 ∧
    -1 ≤ adc_to_unit (pyIntVal f) d ∧ adc_to_unit (pyIntVal f) d ≤ 1 :=
  ⟨parse_packet_ascii_digit_field f hne hdig,
    adc_to_unit_over_range _ d hv hd1,
    (adc_to_unit_bounds _ d).1, (adc_to_unit_bounds _ d).2⟩

/-- Witness for C9 on the payload `"1,1,99999,2"` with the default
deadzone: the over-range axis value 99999 is accepted and saturates. -/
theorem over_range_axis_saturates_witness :
    (['9', '9', '9', '9', '9'] : List Char) ≠ [] ∧
    pyIntVal ['9', '9', '9', '9', '9'] = 99999 ∧
    65535 < pyIntVal ['9', '9', '9', '9', '9'] ∧
    (parse_packet (['1', ','] ++ ['1', ','] ++ ['9', '9', '9', '9', '9']
        ++ [','] ++ ['2'])
      = .ok 1 1 (pyIntVal ['9', '9', '9', '9', '9']) 2 ∧
     adc_to_unit (pyIntVal ['9', '9', '9', '9', '9']) (8/100) = 1 ∧
     -1 ≤ adc_to_unit (pyIntVal ['9', '9', '9', '9', '9']) (8/100) ∧
     adc_to_unit (pyIntVal ['9', '9', '9', '9', '9']) (8/100) ≤ 1) :=
  ⟨by decide, by decide, by decide,
    over_range_axis_saturates ['9', '9', '9', '9', '9'] (by decide)
      (by decide) (8/100) (by norm_num) (by norm_num) (by decide)⟩
